import Mathlib

/-!
# Verification of the kernel/cli computer-use templates

A shallow embedding, in Lean 4, of the core routines of the kernel/cli
repository's computer-use templates, together with theorems settling the
frozen claims about them.

Embedded code (translated from the Python source, file by file):

* `eval-protocol/core/browser.py`: coordinate conversion
  (`normalized_to_pixel` / `pixel_to_normalized`), the `navigate` retry loop,
  and the `acquired_browser` pool context manager.
* `gemini-computer-use/tools/computer.py` and
  `moondream-groq-computer-use/tools/computer.py`: `ComputerTool.execute_action`
  and `ComputerTool.screenshot`.
* `gemini-computer-use/loop.py`: `_prune_old_screenshots`.
* `moondream-groq-computer-use/llm_loop.py`: `_coerce_coords`,
  `_parse_json_action`, `_extract_urls`, the model-call retry prologue, the
  done-flag validation, and the `click_at` / `type_text_at` branches of
  `run_llm_agent`.

Modelling conventions:

* Remote I/O (the Kernel browser API, the Groq model, `repair_json` +
  `json.loads`, `float(str)`) is abstracted as explicit oracle parameters, so
  every theorem is quantified over all possible behaviours of the remote side.
* Python's `int(...)` truncation toward zero is `pyint`; nonnegative integer
  division `a // b` (and `int(a*b/c)` on nonnegative ints, which Python
  evaluates exactly at the magnitudes in play for the single-division
  conversions) is Nat division.  Where Python evaluates a *double-rounded*
  float expression (`int((x/1000)*width)`), the model uses the exact rational
  value; all concrete inputs used in counterexamples below are ones on which
  the float evaluation is exact, so no settled claim depends on the gap.
* Python strings are Lean `String`s; `in` (substring) is `containsSub`.
-/


/-- Python's `needle in hay` substring test. -/
def containsSub (needle hay : String) : Bool :=
  decide (needle.toList <:+: hay.toList)

/-- Python's `int(...)` applied to a real value: truncation toward zero. -/
def pyint (q : ℚ) : ℤ :=
  if 0 ≤ q then ⌊q⌋ else ⌈q⌉

/-- Python's `s.startswith(pre)`. -/
def pyStartsWith (s pre : String) : Bool :=
  pre.toList.isPrefixOf s.toList

/-- Python's `s.endswith(suf)`. -/
def pyEndsWith (s suf : String) : Bool :=
  suf.toList.isSuffixOf s.toList

/-- ASCII lower-casing of one character (the strings the loop lower-cases are
ASCII). -/
def lowerChar (c : Char) : Char :=
  if 'A' ≤ c && c ≤ 'Z' then Char.ofNat (c.toNat + 32) else c

/-- Python's `s.lower()`. -/
def pyLower (s : String) : String :=
  String.mk (s.toList.map lowerChar)

/-- Python's whitespace test used by `str.strip()`. -/
def isPySpace (c : Char) : Bool :=
  c = ' ' || c = '\t' || c = '\n' || c = '\r' || c = '\x0b' || c = '\x0c'

/-- Python's `s.strip()`. -/
def pyStrip (s : String) : String :=
  String.mk (((s.toList.dropWhile isPySpace).reverse.dropWhile isPySpace).reverse)

namespace EvalBrowser

/-- From `eval-protocol/core/browser.py`, `KernelBrowserAdapter.normalized_to_pixel`:
`pixel = int(norm * viewport_extent / 999)` on each axis. -/
def normalizedToPixel (viewportWidth viewportHeight : ℕ) (normX normY : ℕ) : ℕ × ℕ :=
  (normX * viewportWidth / 999, normY * viewportHeight / 999)

/-- From `eval-protocol/core/browser.py`, `KernelBrowserAdapter.pixel_to_normalized`:
`norm = int(pixel * 999 / viewport_extent)` on each axis. -/
def pixelToNormalized (viewportWidth viewportHeight : ℕ) (pixelX pixelY : ℕ) : ℕ × ℕ :=
  (pixelX * 999 / viewportWidth, pixelY * 999 / viewportHeight)

/-- How a call to `KernelBrowserAdapter.navigate` ends: either the page settled
(success return) or a `RuntimeError` was raised to the caller.  There is no
error-carrying result value in this adapter: exhaustion raises. -/
inductive NavEnd
  | settled
  | raisedEx (msg : String)
  deriving DecidableEq, Repr

/-- Observable trace of one `navigate` call: how many `playwright.execute`
attempts were made, the back-off sleeps performed between consecutive attempts
(in seconds, in order), and how the call ended. -/
structure NavTrace where
  attempts : ℕ
  sleeps : List ℚ
  navEnd : NavEnd
  deriving DecidableEq, Repr

/-- `if not url.startswith(("http://", "https://")): url = f"https://{url}"`. -/
def ensureScheme (url : String) : String :=
  if pyStartsWith url "http://" || pyStartsWith url "https://" then url
  else "https://" ++ url

/-- The message of the `RuntimeError` raised when every attempt failed:
`f"Navigation to {url} failed after {max_retries} attempts: {last_error}"`. -/
def navFailMsg (url : String) (maxRetries : ℕ) (lastError : Option String) : String :=
  "Navigation to " ++ url ++ " failed after " ++ toString maxRetries ++ " attempts: " ++
    (match lastError with | some e => e | none => "None")

/-- The `for attempt in range(max_retries)` loop body of `navigate`.  `exec i`
is the outcome of `kernel.browsers.playwright.execute` on attempt `i` (the
remote call is the oracle).  On success the loop returns (the subsequent
`wait_for_screen_settle` is outside the claim); on failure it records the
error, sleeps `0.5 * 2**attempt` if another attempt remains, and continues. -/
def navLoop (exec : ℕ → Except String Unit) (maxRetries : ℕ) (url : String) :
    List ℕ → ℕ → Option String → List ℚ → NavTrace
  | [], made, lastError, sleeps =>
      ⟨made, sleeps, .raisedEx (navFailMsg url maxRetries lastError)⟩
  | attempt :: rest, made, _, sleeps =>
      match exec attempt with
      | .ok _ => ⟨made + 1, sleeps, .settled⟩
      | .error e =>
          let sleeps' := if attempt + 1 < maxRetries
            then sleeps ++ [(1/2 : ℚ) * 2 ^ attempt] else sleeps
          navLoop exec maxRetries url rest (made + 1) (some e) sleeps'

/-- `KernelBrowserAdapter.navigate(url, max_retries=3)` from
`eval-protocol/core/browser.py`, as a trace over the attempt oracle. -/
def navigate (exec : ℕ → Except String Unit) (url : String) (maxRetries : ℕ := 3) :
    NavTrace :=
  navLoop exec maxRetries (ensureScheme url) (List.range maxRetries) 0 none []

/-- How the body of the `with acquired_browser(...)` block exits: a normal
return; an `Exception`-derived exception; or a `BaseException` that is *not*
an `Exception` — `asyncio.CancelledError` (which is how a task-timeout
cancellation lands at the awaited body, and a `BaseException` since
Python 3.8), `KeyboardInterrupt`, or `SystemExit`. -/
inductive BodyExit
  | normal
  | exc (e : String)
  | baseExc (e : String)
  deriving DecidableEq

/-- Pool-side effects performed by `acquired_browser`, in order. -/
inductive PoolEvent
  | acquire (pool : String)
  | stopHeartbeat
  | release (pool sessionId : String) (reuse : Bool)
  | reraise (e : String)
  deriving DecidableEq

/-- The adapter's `_should_not_reuse` after `KernelBrowserAdapter.__init__`:
it starts `False` and `reset_browser` (run iff `reset_on_init`) sets it iff the
reset's `playwright.execute` reports failure.  Nothing else in the repository
writes this flag, so its value at scope exit is its value after setup. -/
def initShouldNotReuse (resetOnInit resetFails : Bool) : Bool :=
  resetOnInit && resetFails

/-- `acquired_browser` from `eval-protocol/core/browser.py`: acquire from the
pool, build the adapter, `yield` it to the body; on an `Exception` from the
body, stop the heartbeat, release with `reuse=False` and re-raise; on normal
exit, stop the heartbeat and release with
`reuse = not adapter._should_not_reuse`.  The source's `try/except
Exception/else` has **no `finally`**: a `BaseException` exit (cancellation,
`KeyboardInterrupt`, `SystemExit`) is caught by neither branch, so on that
path the heartbeat is not stopped and *no release occurs* — the exception
propagates straight out of the scope. -/
def acquiredBrowser (pool sessionId : String) (resetOnInit resetFails : Bool)
    (body : BodyExit) : List PoolEvent :=
  let shouldNotReuse := initShouldNotReuse resetOnInit resetFails
  PoolEvent.acquire pool ::
    match body with
    | .exc e => [.stopHeartbeat, .release pool sessionId false, .reraise e]
    | .baseExc e => [.reraise e]
    | .normal => [.stopHeartbeat, .release pool sessionId (!shouldNotReuse)]

/-- The release calls (pool, session, reuse) appearing in a trace, in order. -/
def releasesOf (tr : List PoolEvent) : List (String × String × Bool) :=
  tr.filterMap (fun ev => match ev with
    | .release p sid r => some (p, sid, r)
    | _ => none)

end EvalBrowser

namespace GeminiTool

/-- `ScreenSize` from `gemini-computer-use/tools/types.py`. -/
structure ScreenSize where
  width : ℤ
  height : ℤ
  deriving DecidableEq

/-- `COORDINATE_SCALE = 1000` (Gemini's normalized 0–1000 scale). -/
def COORDINATE_SCALE : ℚ := 1000

/-- `denormalize_x`: `int((x / COORDINATE_SCALE) * screen_size.width)`.
Python evaluates this in binary floating point; the model uses the exact
rational value (they agree on every input used below). -/
def denormalizeX (screen : ScreenSize) (x : ℤ) : ℤ :=
  pyint ((x : ℚ) / COORDINATE_SCALE * (screen.width : ℚ))

/-- `denormalize_y`: `int((y / COORDINATE_SCALE) * screen_size.height)`. -/
def denormalizeY (screen : ScreenSize) (y : ℤ) : ℤ :=
  pyint ((y : ℚ) / COORDINATE_SCALE * (screen.height : ℚ))

/-- `GeminiFunctionArgs` (a `TypedDict, total=False`): an absent key is
`none`. -/
structure FunctionArgs where
  x : Option ℤ := none
  y : Option ℤ := none
  clicks : Option ℤ := none
  text : Option String := none
  pressEnter : Bool := false
  clearBeforeTyping : Bool := true
  direction : Option String := none
  magnitude : Option ℤ := none
  url : Option String := none
  keys : Option String := none
  destinationX : Option ℤ := none
  destinationY : Option ℤ := none
  deriving DecidableEq

/-- The primitive Kernel Computer-Controls calls (and `asyncio.sleep`s) an
action body performs, in order. -/
inductive RemoteCall
  | clickMouse (x y : ℤ) (button clickType : String) (numClicks : ℤ)
  | moveMouse (x y : ℤ)
  | pressKey (keys : List String)
  | typeText (text : String) (delay : ℤ)
  | scroll (x y deltaX deltaY : ℤ)
  | dragMouse (path : List (ℤ × ℤ)) (button : String)
  | sleep (seconds : ℚ)
  deriving DecidableEq

/-- What a dispatch branch decides before reaching the remote: either an early
`return ToolResult(error=...)` (argument validation), or the ordered remote
calls the branch performs inside the `try`. -/
inductive BranchPlan
  | early (msg : String)
  | calls (cs : List RemoteCall)
  deriving DecidableEq

/-- `GeminiAction` / `PREDEFINED_COMPUTER_USE_FUNCTIONS` member names. -/
def predefinedFunctions : List String :=
  ["open_web_browser", "click_at", "hover_at", "type_text_at", "scroll_document",
   "scroll_at", "wait_5_seconds", "go_back", "go_forward", "search", "navigate",
   "key_combination", "drag_and_drop"]

/-- `TYPING_DELAY_MS = 12`. -/
def TYPING_DELAY_MS : ℤ := 12

/-- The `if/elif` dispatch inside `ComputerTool.execute_action`
(`gemini-computer-use/tools/computer.py`), lines 79–275: per-action
required-argument validation, then the body's remote calls in order. -/
def branch (screen : ScreenSize) (name : String) (args : FunctionArgs) : BranchPlan :=
  if name = "open_web_browser" then .calls []
  else if name = "click_at" then
    match args.x, args.y with
    | some x, some y =>
        .calls [.clickMouse (denormalizeX screen x) (denormalizeY screen y) "left" "click" 1]
    | _, _ => .early "click_at requires x and y coordinates"
  else if name = "hover_at" then
    match args.x, args.y with
    | some x, some y => .calls [.moveMouse (denormalizeX screen x) (denormalizeY screen y)]
    | _, _ => .early "hover_at requires x and y coordinates"
  else if name = "type_text_at" then
    match args.x, args.y with
    | some x, some y =>
        match args.text with
        | some text =>
            .calls
              ([.clickMouse (denormalizeX screen x) (denormalizeY screen y) "left" "click" 1] ++
                (if args.clearBeforeTyping then
                  [.pressKey ["ctrl+a"], .sleep (5/100)] else []) ++
                [.typeText text TYPING_DELAY_MS] ++
                (if args.pressEnter then [.sleep (1/10), .pressKey ["Return"]] else []))
        | none => .early "type_text_at requires text"
    | _, _ => .early "type_text_at requires x and y coordinates"
  else if name = "scroll_document" then
    match args.direction with
    | some direction =>
        let centerX := screen.width / 2
        let centerY := screen.height / 2
        let d : ℤ × ℤ :=
          if direction = "down" then (0, 500)
          else if direction = "up" then (0, -500)
          else if direction = "right" then (500, 0)
          else if direction = "left" then (-500, 0)
          else (0, 0)
        .calls [.scroll centerX centerY d.1 d.2]
    | none => .early "scroll_document requires direction"
  else if name = "scroll_at" then
    match args.x, args.y with
    | some x, some y =>
        match args.direction with
        | some direction =>
            let px := denormalizeX screen x
            let py := denormalizeY screen y
            let magnitude0 := args.magnitude.getD 800
            let magnitude := if direction = "up" ∨ direction = "down"
              then denormalizeY screen magnitude0 else denormalizeX screen magnitude0
            let d : ℤ × ℤ :=
              if direction = "down" then (0, magnitude)
              else if direction = "up" then (0, -magnitude)
              else if direction = "right" then (magnitude, 0)
              else if direction = "left" then (-magnitude, 0)
              else (0, 0)
            .calls [.scroll px py d.1 d.2]
        | none => .early "scroll_at requires direction"
    | _, _ => .early "scroll_at requires x and y coordinates"
  else if name = "wait_5_seconds" then .calls [.sleep 5]
  else if name = "go_back" then .calls [.pressKey ["alt+Left"], .sleep 1]
  else if name = "go_forward" then .calls [.pressKey ["alt+Right"], .sleep 1]
  else if name = "search" then .calls [.pressKey ["ctrl+l"]]
  else if name = "navigate" then
    match args.url with
    | some url =>
        .calls [.pressKey ["ctrl+l"], .sleep (1/10), .typeText url TYPING_DELAY_MS,
          .sleep (1/10), .pressKey ["Return"], .sleep (3/2)]
    | none => .early "navigate requires url"
  else if name = "key_combination" then
    match args.keys with
    | some keys => .calls [.pressKey [keys]]
    | none => .early "key_combination requires keys"
  else if name = "drag_and_drop" then
    match args.x, args.y, args.destinationX, args.destinationY with
    | some x, some y, some dx, some dy =>
        .calls [.dragMouse
          [(denormalizeX screen x, denormalizeY screen y),
            (denormalizeX screen dx, denormalizeY screen dy)] "left"]
    | _, _, _, _ => .early "drag_and_drop requires x, y, destination_x, and destination_y"
  else .early ("Unhandled action: " ++ name)

/-- `ToolResult` from `gemini-computer-use/tools/types.py` (screenshot bytes
modelled as a string). -/
structure ToolResult where
  base64Image : Option String := none
  screenshot : Option String := none
  url : Option String := none
  error : Option String := none
  deriving DecidableEq

/-- A `ToolResult(error=msg)` as every validation/exception site builds it. -/
def errResult (msg : String) : ToolResult := { error := some msg }

/-- `base64.b64encode(...).decode("utf-8")`, modelled as an injective total
tagging function (no settled claim depends on the encoding itself). -/
def b64encode (bytes : String) : String := "base64:" ++ bytes

/-- `ComputerTool.screenshot`: capture (oracle `cap`), then best-effort URL
fetch (oracle `getUrl`, its failure swallowed, `state.url or ""`); a capture
exception is caught and returned as `ToolResult(error=...)`. -/
def screenshotResult (cap : Except String String)
    (getUrl : Except String (Option String)) : ToolResult :=
  match cap with
  | .error e => errResult ("Failed to take screenshot: " ++ e)
  | .ok bytes =>
      { base64Image := some (b64encode bytes)
        screenshot := some bytes
        url := some (match getUrl with | .ok (some u) => u | .ok none => "" | .error _ => "") }

/-- Run the branch's remote calls in order; the first raising call aborts the
rest (Python exception semantics inside the `try`). -/
def runRemote (remote : RemoteCall → Except String Unit) : List RemoteCall → Except String Unit
  | [] => .ok ()
  | c :: cs => match remote c with
    | .ok _ => runRemote remote cs
    | .error e => .error e

/-- `ComputerTool.execute_action` (`gemini-computer-use/tools/computer.py`):
unknown-name check, dispatch (validation → remote calls), exceptions caught
into `ToolResult(error=f"Action failed: {e}")`, and on success a trailing
screenshot capture. -/
def executeAction (remote : RemoteCall → Except String Unit)
    (cap : Except String String) (getUrl : Except String (Option String))
    (screen : ScreenSize) (name : String) (args : FunctionArgs) : ToolResult :=
  if name ∉ predefinedFunctions then errResult ("Unknown action: " ++ name)
  else match branch screen name args with
  | .early msg => errResult msg
  | .calls cs =>
      match runRemote remote cs with
      | .error e => errResult ("Action failed: " ++ e)
      | .ok _ => screenshotResult cap getUrl

end GeminiTool

namespace MoonTool

-- `moondream-groq-computer-use/tools/computer.py` repeats the Gemini tool's
-- primitive call vocabulary, arg shape, scale and denormalization verbatim.
open GeminiTool (ScreenSize FunctionArgs RemoteCall BranchPlan denormalizeX denormalizeY
  predefinedFunctions TYPING_DELAY_MS runRemote)

/-- `ToolResult` from `moondream-groq-computer-use/tools/types.py`. -/
structure ToolResult where
  base64Image : Option String := none
  url : Option String := none
  error : Option String := none
  width : Option ℤ := none
  height : Option ℤ := none
  deriving DecidableEq

/-- Moondream-variant `ToolResult(error=msg, url="about:blank")` (the action
and screenshot failure sites both set `url="about:blank"`). -/
def errResult (msg : String) : ToolResult := { error := some msg, url := some "about:blank" }

/-- `ToolResult(error=f"Unknown action: {name}")` — the unknown-action site
sets no url. -/
def unknownResult (msg : String) : ToolResult := { error := some msg }

/-- Big-endian byte concatenation: `int.from_bytes(bs, "big")`. -/
def beBytesToNat (bs : List ℕ) : ℕ := bs.foldl (fun acc b => acc * 256 + b) 0

/-- `_parse_png_dimensions`: length/magic check, then width and height as
big-endian 32-bit fields at offsets 16 and 20, rejected unless positive. -/
def parsePngDimensions (data : List ℕ) : Option ScreenSize :=
  if data.length < 24 then none
  else if ¬(data.take 8 = [137, 80, 78, 71, 13, 10, 26, 10]) then none
  else
    let width := beBytesToNat ((data.drop 16).take 4)
    let height := beBytesToNat ((data.drop 20).take 4)
    if width = 0 ∨ height = 0 then none
    else some ⟨(width : ℤ), (height : ℤ)⟩

/-- `base64.b64encode` on raw bytes, modelled as an injective tagging
function. -/
def b64encodeBytes (bytes : List ℕ) : String := "base64:" ++ toString bytes

/-- `ComputerTool.screenshot` (moondream variant): capture (oracle), PNG
dimension sniffing (which also updates `self.screen_size`, a state change with
no bearing on the returned result's fields), fixed `url="about:blank"`; a
capture exception is caught into `ToolResult(error=..., url="about:blank")`. -/
def screenshotResult (cap : Except String (List ℕ)) : ToolResult :=
  match cap with
  | .error e => errResult ("Failed to take screenshot: " ++ e)
  | .ok bytes =>
      let dims := parsePngDimensions bytes
      { base64Image := some (b64encodeBytes bytes)
        url := some "about:blank"
        width := dims.map (·.width)
        height := dims.map (·.height) }

/-- The `if/elif` dispatch of the moondream `ComputerTool.execute_action`
(lines 67–258): identical to the Gemini tool except that `click_at` honours a
truthy `clicks` count and `key_combination` maps `"enter"` (case-insensitive)
to `"Return"`. -/
def branch (screen : ScreenSize) (name : String) (args : FunctionArgs) : BranchPlan :=
  if name = "click_at" then
    match args.x, args.y with
    | some x, some y =>
        let numClicks : ℤ := match args.clicks with
          | some c => if c = 0 then 1 else c
          | none => 1
        .calls [.clickMouse (denormalizeX screen x) (denormalizeY screen y)
          "left" "click" numClicks]
    | _, _ => .early "click_at requires x and y coordinates"
  else if name = "key_combination" then
    match args.keys with
    | some keys =>
        let keys := if pyLower keys = "enter" then "Return" else keys
        .calls [.pressKey [keys]]
    | none => .early "key_combination requires keys"
  else GeminiTool.branch screen name args

/-- `ComputerTool.execute_action` (moondream variant). -/
def executeAction (remote : RemoteCall → Except String Unit)
    (cap : Except String (List ℕ))
    (screen : ScreenSize) (name : String) (args : FunctionArgs) : ToolResult :=
  if name ∉ predefinedFunctions then unknownResult ("Unknown action: " ++ name)
  else match branch screen name args with
  | .early msg => errResult msg
  | .calls cs =>
      match runRemote remote cs with
      | .error e => errResult ("Action failed: " ++ e)
      | .ok _ => screenshotResult cap

end MoonTool

namespace GeminiLoop

/-- A content part of the Gemini conversation: either text or a
`function_response` (its `name`, its non-image response data, and its optional
`parts` array, which is where screenshot payloads live). -/
inductive GPart
  | textPart (s : String)
  | funcResp (nm response : String) (frParts : Option (List String))
  deriving DecidableEq

/-- One `Content` turn: a role and its ordered parts. -/
structure GContent where
  role : String
  parts : List GPart
  deriving DecidableEq

/-- `MAX_RECENT_TURN_WITH_SCREENSHOTS = 3` from `gemini-computer-use/loop.py`. -/
def MAX_RECENT_TURN_WITH_SCREENSHOTS : ℕ := 3

/-- `_is_predefined_function`: membership in the predefined computer-use
function names. -/
def isPredefinedFunction (nm : String) : Bool :=
  decide (nm ∈ GeminiTool.predefinedFunctions)

/-- Python truthiness of `part.function_response.parts` (`None` and `[]` are
falsy). -/
def frPartsTruthy : Option (List String) → Bool
  | none => false
  | some l => !l.isEmpty

/-- Whether a part carries a screenshot: a `function_response` of a predefined
function with a truthy `parts` array. -/
def partHasScreenshot (p : GPart) : Bool :=
  match p with
  | .funcResp nm _ fp => isPredefinedFunction nm && frPartsTruthy fp
  | _ => false

/-- Whether a turn counts in the pruning walk: `role == "user"`, truthy
`content.parts`, and some part carries a screenshot. -/
def hasScreenshotTurn (c : GContent) : Bool :=
  (c.role == "user") && !c.parts.isEmpty && c.parts.any partHasScreenshot

/-- The clearing step applied to each part of a pruned turn:
`part.function_response.parts = None` on every predefined `function_response`
part (text parts and the `function_response`'s name/response survive). -/
def clearPart (p : GPart) : GPart :=
  match p with
  | .funcResp nm r _ => if isPredefinedFunction nm then .funcResp nm r none else p
  | .textPart s => .textPart s

/-- A pruned turn: every part run through `clearPart`; role untouched. -/
def clearContent (c : GContent) : GContent :=
  ⟨c.role, c.parts.map clearPart⟩

/-- The reversed walk of `_prune_old_screenshots`, processing turns from most
recent to oldest with the running count of screenshot-bearing turns seen. -/
def pruneAux : ℕ → List GContent → List GContent
  | _, [] => []
  | seen, c :: rest =>
      if hasScreenshotTurn c then
        (if seen + 1 > MAX_RECENT_TURN_WITH_SCREENSHOTS then clearContent c else c) ::
          pruneAux (seen + 1) rest
      else c :: pruneAux seen rest

/-- `_prune_old_screenshots(contents)` from `gemini-computer-use/loop.py`:
iterate `reversed(contents)` counting screenshot-bearing user turns; once more
than `MAX_RECENT_TURN_WITH_SCREENSHOTS` have been seen, null out the
`function_response.parts` of every predefined part of the turn.  (The Python
mutates in place; the model returns the mutated list, order preserved.) -/
def pruneOldScreenshots (contents : List GContent) : List GContent :=
  (pruneAux 0 contents.reverse).reverse

/-- Number of screenshot-bearing turns in a slice of the history. -/
def countShots (l : List GContent) : ℕ := l.countP hasScreenshotTurn

/-- Text parts of a turn, in order (non-image content). -/
def textsOf (c : GContent) : List String :=
  c.parts.filterMap (fun p => match p with | .textPart s => some s | _ => none)

/-- The `function_response` names and response data of a turn, in order
(non-image content). -/
def funcMeta (c : GContent) : List (String × String) :=
  c.parts.filterMap (fun p => match p with | .funcResp nm r _ => some (nm, r) | _ => none)

/-- A concrete seven-message history with five screenshot-bearing turns
(indices 1, 2, 4, 5, 6), used to witness `c8_prune_old_screenshots`. -/
def exampleHistory : List GContent :=
  [⟨"model", [.textPart "plan"]⟩,
   ⟨"user", [.funcResp "click_at" "r1" (some ["img1"]), .textPart "t1"]⟩,
   ⟨"user", [.funcResp "navigate" "r2" (some ["img2"])]⟩,
   ⟨"user", [.textPart "plain"]⟩,
   ⟨"user", [.funcResp "click_at" "r3" (some ["img3"])]⟩,
   ⟨"user", [.funcResp "go_back" "r4" (some ["img4"])]⟩,
   ⟨"user", [.funcResp "scroll_at" "r5" (some ["img5"])]⟩]

end GeminiLoop

namespace MoonLoop

/-- `COORDINATE_SCALE = 1000`, imported by the loop from `tools`. -/
def COORDINATE_SCALE : ℚ := 1000

/-- A JSON value as far as the loop inspects one: a string, or anything else. -/
inductive JVal
  | jstr (s : String)
  | jother
  deriving DecidableEq

/-- A parsed JSON object (dict): ordered key/value pairs. -/
abbrev JsonObj := List (String × JVal)

/-- Outcome of `json.loads(repair_json(s))`: an exception, a non-dict value,
or a dict.  The `json_repair` library and `json.loads` are external to the
repository, so this composite is an oracle parameter of every function that
uses it. -/
inductive RepairOutcome
  | raiseEx (e : String)
  | nonObj
  | obj (o : JsonObj)
  deriving DecidableEq

/-- A chat message as the loop appends them. -/
structure Msg where
  role : String
  content : String
  deriving DecidableEq

/-- Index of the last occurrence of `c` (Python's `str.rfind`). -/
def lastIdxOf (cs : List Char) (c : Char) : Option ℕ :=
  (cs.reverse.findIdx? (· = c)).map (fun j => cs.length - 1 - j)

/-- `_parse_json_action` from `moondream-groq-computer-use/llm_loop.py`:
take the substring between the first `{` and the last `}` (raising
`ValueError` when absent or ill-ordered), run `repair_json` + `json.loads`
on it (the oracle), and require a dict. -/
def parseJsonAction (oracle : String → RepairOutcome) (raw : String) :
    Except String JsonObj :=
  let cs := raw.toList
  match cs.findIdx? (· = '{'), lastIdxOf cs '}' with
  | some s, some e =>
      if e ≤ s then .error "No JSON object found in LLM response"
      else
        let snippet := String.mk ((cs.drop s).take (e + 1 - s))
        match oracle snippet with
        | .raiseEx err => .error err
        | .nonObj => .error "LLM JSON did not produce an object"
        | .obj o => .ok o
  | _, _ => .error "No JSON object found in LLM response"

/-- The corrective message appended when the first `_groq_completion` call
raises. -/
def invalidOutputMsg : Msg :=
  ⟨"user", "Your last output was invalid. Return ONLY a JSON object that matches the schema."⟩

/-- The substitute raw response after the second completion failure. -/
def emptyActionsRaw : String := "\x7b\"actions\":[]\x7d"

/-- What the completion-and-parse prologue of one `run_llm_agent` iteration
(lines 201–227) produces: the corrective messages appended, the `error`
variable's new value, and the parse step's outcome.  `first`/`second` are the
two possible `_groq_completion` calls (the oracle for the model API); the
**parse** step runs outside any `try`, so a `.error` in `parsed` is a
`ValueError` propagating uncaught out of `run_llm_agent`. -/
structure ParsePhase where
  appended : List Msg
  errorVar : Option String
  parsed : Except String JsonObj

def iterationParsePhase (oracle : String → RepairOutcome)
    (first second : Except String String) : ParsePhase :=
  match first with
  | .ok raw => ⟨[], none, parseJsonAction oracle raw⟩
  | .error _ =>
      match second with
      | .ok raw => ⟨[invalidOutputMsg], none, parseJsonAction oracle raw⟩
      | .error e2 => ⟨[invalidOutputMsg], some e2, parseJsonAction oracle emptyActionsRaw⟩

/-- A coordinate argument as received from the model: a JSON number or a
string. -/
inductive CoordVal
  | num (q : ℚ)
  | str (s : String)
  deriving DecidableEq

/-- The `x`/`y` entries of an action's `args` mapping (`none` = key absent). -/
structure CoordArgs where
  x : Option CoordVal := none
  y : Option CoordVal := none
  deriving DecidableEq

/-- `isinstance(v, str) and ("{" in v or "}" in v)`. -/
def placeholderStr : CoordVal → Bool
  | .str s => containsSub "\x7b" s || containsSub "\x7d" s
  | .num _ => false

/-- Python's `float(value)`: a number passes through; a string goes through the
parse oracle `pf` (`none` = `ValueError`). -/
def toFloat (pf : String → Option ℚ) : CoordVal → Except String ℚ
  | .num q => .ok q
  | .str s =>
      match pf s with
      | some q => .ok q
      | none => .error ("could not convert string to float: " ++ s)

/-- `_coerce_coords(args, screen_size)` from
`moondream-groq-computer-use/llm_loop.py` lines 776–791: key-presence check,
placeholder check on string values, `float` conversion, then the three-branch
classification — both coordinates in `[0,1]` ⇒ scale both by 1000; else both in
`[0,1000]` ⇒ use both as-is; else divide both by the screen extents and scale.
(`screen_size` is a dataclass and always truthy, so the `DEFAULT_SCREEN_SIZE`
fallback in the source is dead; Python's float arithmetic is modelled
exactly.) -/
def coerceCoords (pf : String → Option ℚ) (args : CoordArgs)
    (screen : GeminiTool.ScreenSize) : Except String (ℤ × ℤ) :=
  match args.x, args.y with
  | some xv, some yv =>
      if placeholderStr xv then .error "x must be a number, not a placeholder"
      else if placeholderStr yv then .error "y must be a number, not a placeholder"
      else
        match toFloat pf xv with
        | .error e => .error e
        | .ok x =>
            match toFloat pf yv with
            | .error e => .error e
            | .ok y =>
                if (0 ≤ x ∧ x ≤ 1) ∧ (0 ≤ y ∧ y ≤ 1) then
                  .ok (pyint (x * COORDINATE_SCALE), pyint (y * COORDINATE_SCALE))
                else if (0 ≤ x ∧ x ≤ COORDINATE_SCALE) ∧ (0 ≤ y ∧ y ≤ COORDINATE_SCALE) then
                  .ok (pyint x, pyint y)
                else
                  .ok (pyint (x / (screen.width : ℚ) * COORDINATE_SCALE),
                    pyint (y / (screen.height : ℚ) * COORDINATE_SCALE))
  | _, _ => .error "x and y are required"

/-- The per-**value** classification heuristic exactly as the claim's sentence
states it (spec words, for refinement comparison with `coerceCoords`): if
`0 <= value <= 1` treat as unit interval; else if `0 <= value <= scale` treat
as fixed scale; else treat as a raw pixel divided by the screen extent. -/
def specCoerceValue (scale : ℚ) (extent : ℤ) (v : ℚ) : ℤ :=
  if 0 ≤ v ∧ v ≤ 1 then pyint (v * scale)
  else if 0 ≤ v ∧ v ≤ scale then pyint v
  else pyint (v / (extent : ℚ) * scale)

/-- The classification heuristic applied to the **pair jointly** (the amended
claim): both values in `[0,1]`, else both in `[0,scale]`, else both raw
pixels. -/
def specCoercePair (scale : ℚ) (screen : GeminiTool.ScreenSize) (x y : ℚ) : ℤ × ℤ :=
  if (0 ≤ x ∧ x ≤ 1) ∧ (0 ≤ y ∧ y ≤ 1) then (pyint (x * scale), pyint (y * scale))
  else if (0 ≤ x ∧ x ≤ scale) ∧ (0 ≤ y ∧ y ≤ scale) then (pyint x, pyint y)
  else (pyint (x / (screen.width : ℚ) * scale), pyint (y / (screen.height : ℚ) * scale))

/-- `_extract_urls` from `llm_loop.py`: on a `{...}`-shaped (stripped) final
response that repairs+parses to a dict, collect the string values of keys
containing "url" (case-insensitive); every failure mode yields `[]`. -/
def extractUrls (oracle : String → RepairOutcome) (finalResponse : String) : List String :=
  let text := pyStrip finalResponse
  if !(pyStartsWith text "\x7b" && pyEndsWith text "\x7d") then []
  else
    match oracle text with
    | .raiseEx _ => []
    | .nonObj => []
    | .obj kvs =>
        kvs.filterMap (fun kv =>
          if containsSub "url" (pyLower kv.1) then
            match kv.2 with
            | .jstr s => some s
            | .jother => none
          else none)

/-- Corrective message of the empty/placeholder final-response check. -/
def placeholderMsg : Msg :=
  ⟨"user", "final_response must be non-empty and use concrete values (no placeholders). Return a corrected JSON object."⟩

/-- Corrective message of the JSON-shaped-but-invalid final-response check. -/
def invalidJsonMsg : Msg :=
  ⟨"user", "final_response looks like JSON but is invalid. Return a valid JSON object string."⟩

/-- Corrective message when a URL is returned without a prior `page_info`. -/
def missingPageInfoMsg : Msg :=
  ⟨"user", "You returned a URL but did not call page_info. Call page_info on the current page before final_response."⟩

/-- Corrective message when the returned URL mismatches the `page_info` URL. -/
def urlMismatchMsg : Msg :=
  ⟨"user", "The returned URL does not match the current page_info URL. Navigate to the correct page and then return that URL."⟩

/-- The done-flag validation of one `run_llm_agent` iteration (lines 604–668):
three sequential checks, each appending one corrective user message and
resetting `done_flag`/`final_response` when it fires.  Check 2's `try` block
treats an exception from repair/parse and a non-dict result alike.
(`last_page_url` is only ever set to a truthy URL, so `Option` models its
Python truthiness.)  Returns (messages, done_flag, final_response). -/
def validateDone (oracle : String → RepairOutcome) (msgs : List Msg)
    (lastPageUrl : Option String) (doneFlag : Bool) (finalResponse : String) :
    List Msg × Bool × String :=
  let s1 : List Msg × Bool × String :=
    if doneFlag &&
        (finalResponse == "" || containsSub "\x7b\x7b" finalResponse ||
          containsSub "\x7d\x7d" finalResponse ||
          containsSub "placeholder" (pyLower finalResponse)) then
      (msgs ++ [placeholderMsg], false, "")
    else (msgs, doneFlag, finalResponse)
  let s2 : List Msg × Bool × String :=
    if s1.2.1 && pyStartsWith (pyStrip s1.2.2) "\x7b" then
      match oracle (pyStrip s1.2.2) with
      | .obj _ => s1
      | _ => (s1.1 ++ [invalidJsonMsg], false, "")
    else s1
  if s2.2.1 then
    let urls := extractUrls oracle s2.2.2
    match lastPageUrl with
    | none => if !urls.isEmpty then (s2.1 ++ [missingPageInfoMsg], false, "") else s2
    | some u =>
        if !urls.isEmpty && urls.any (fun url => url != u) then
          (s2.1 ++ [urlMismatchMsg], false, "")
        else s2
  else s2

/-- One entry of the per-iteration `results` list (the fields the claims
inspect). -/
structure ResultRec where
  action : String
  status : String
  detail : String
  usedLastPoint : Bool := false
  deriving DecidableEq

/-- `_status(result)`: "failed" iff the executor result carries an error. -/
def statusOf (execOk : Bool) : String := if execOk then "success" else "failed"

/-- What one `click_at` / `type_text_at` branch run produces: the `results`
entries it appends, the normalized coordinates it executes at (`none` =
skipped), and the exception it raises into the surrounding batch handler, if
any. -/
structure BranchOut where
  records : List ResultRec
  executedAt : Option (ℤ × ℤ)
  raised : Option String
  deriving DecidableEq

/-- The `click_at` branch of `run_llm_agent` (lines 268–302): on coercion
failure fall back to the last `moondream_point` coordinates (appending a
success record flagged `used_last_point`) or, absent one, record a failure and
skip; then execute and record the click (`execOk` = whether the executor
result carried no error). -/
def clickAtBranch (pf : String → Option ℚ) (args : CoordArgs)
    (screen : GeminiTool.ScreenSize) (lastPointNorm : Option (ℤ × ℤ))
    (execOk : Bool) : BranchOut :=
  match coerceCoords pf args screen with
  | .ok (x, y) =>
      ⟨[⟨"click_at", statusOf execOk, "clicked", false⟩], some (x, y), none⟩
  | .error e =>
      match lastPointNorm with
      | some (x, y) =>
          ⟨[⟨"click_at", "success", "used last moondream_point", true⟩,
            ⟨"click_at", statusOf execOk, "clicked", false⟩], some (x, y), none⟩
      | none => ⟨[⟨"click_at", "failed", e, false⟩], none, none⟩

/-- The `type_text_at` branch (lines 329–370): the same coordinate fallback,
then the `text` requirement — raising `ValueError("type_text_at requires
text")` (aborting the batch) when `text` is absent, which happens *after* any
`used_last_point` success record was appended. -/
def typeTextAtBranch (pf : String → Option ℚ) (args : CoordArgs)
    (text : Option String) (screen : GeminiTool.ScreenSize)
    (lastPointNorm : Option (ℤ × ℤ)) (execOk : Bool) : BranchOut :=
  match coerceCoords pf args screen with
  | .ok (x, y) =>
      match text with
      | none => ⟨[], none, some "type_text_at requires text"⟩
      | some _ => ⟨[⟨"type_text_at", statusOf execOk, "typed", false⟩], some (x, y), none⟩
  | .error e =>
      match lastPointNorm with
      | some (x, y) =>
          match text with
          | none =>
              ⟨[⟨"type_text_at", "success", "used last moondream_point", true⟩],
                none, some "type_text_at requires text"⟩
          | some _ =>
              ⟨[⟨"type_text_at", "success", "used last moondream_point", true⟩,
                ⟨"type_text_at", statusOf execOk, "typed", false⟩], some (x, y), none⟩
      | none => ⟨[⟨"type_text_at", "failed", e, false⟩], none, none⟩

end MoonLoop


namespace EvalBrowser

/-- Single-axis round trip: pixel → normalized (0–999) → pixel. -/
lemma roundtrip_axis_bound (w p : ℕ) (hw : 0 < w) :
    (p * 999 / w) * w / 999 ≤ p ∧
    (p - (p * 999 / w) * w / 999) * 999 ≤ w + 997 := by
  set n := p * 999 / w with hn
  have hA : n * w ≤ p * 999 := by
    rw [hn]; exact Nat.div_mul_le_self _ _
  set A := n * w with hAdef
  set b := A / 999 with hb
  have h1 : A + (p * 999) % w = p * 999 := by
    rw [hAdef, hn, mul_comm (p * 999 / w) w]
    exact Nat.div_add_mod _ _
  have h2 : (p * 999) % w < w := Nat.mod_lt _ hw
  have h3 : 999 * b + A % 999 = A := Nat.div_add_mod _ _
  have h4 : A % 999 < 999 := Nat.mod_lt _ (by norm_num)
  constructor <;> omega

/-- C6 (corrected form): the pixel → normalized → pixel round trip through
`pixel_to_normalized` / `normalized_to_pixel` never overshoots, and its loss is
bounded by `extent/999 + 1` units per axis (so at most 1 only when the extent is
at most 999; at a 1920×1080 viewport the loss can reach 2). -/
theorem c6_roundtrip_amended (w h px py : ℕ) (hw : 0 < w) (hh : 0 < h)
    (hpx : px < w) (hpy : py < h) :
    (normalizedToPixel w h (pixelToNormalized w h px py).1
        (pixelToNormalized w h px py).2).1 ≤ px ∧
    (normalizedToPixel w h (pixelToNormalized w h px py).1
        (pixelToNormalized w h px py).2).2 ≤ py ∧
    (px - (normalizedToPixel w h (pixelToNormalized w h px py).1
        (pixelToNormalized w h px py).2).1) * 999 ≤ w + 997 ∧
    (py - (normalizedToPixel w h (pixelToNormalized w h px py).1
        (pixelToNormalized w h px py).2).2) * 999 ≤ h + 997 ∧
    (w ≤ 999 →
      px - (normalizedToPixel w h (pixelToNormalized w h px py).1
        (pixelToNormalized w h px py).2).1 ≤ 1) ∧
    (h ≤ 999 →
      py - (normalizedToPixel w h (pixelToNormalized w h px py).1
        (pixelToNormalized w h px py).2).2 ≤ 1) := by
  have hx := roundtrip_axis_bound w px hw
  have hy := roundtrip_axis_bound h py hh
  simp only [normalizedToPixel, pixelToNormalized] at *
  refine ⟨hx.1, hy.1, hx.2, hy.2, ?_, ?_⟩ <;> intro hle <;> omega

/-- Witness for `c6_roundtrip_amended` at the 1920×1080 viewport, p = (100, 50). -/
theorem c6_roundtrip_amended_witness :
    (0 < 1920 ∧ 0 < 1080 ∧ 100 < 1920 ∧ 50 < 1080) ∧
    ((normalizedToPixel 1920 1080 (pixelToNormalized 1920 1080 100 50).1
        (pixelToNormalized 1920 1080 100 50).2).1 ≤ 100 ∧
      (normalizedToPixel 1920 1080 (pixelToNormalized 1920 1080 100 50).1
        (pixelToNormalized 1920 1080 100 50).2).2 ≤ 50 ∧
      (100 - (normalizedToPixel 1920 1080 (pixelToNormalized 1920 1080 100 50).1
        (pixelToNormalized 1920 1080 100 50).2).1) * 999 ≤ 1920 + 997 ∧
      (50 - (normalizedToPixel 1920 1080 (pixelToNormalized 1920 1080 100 50).1
        (pixelToNormalized 1920 1080 100 50).2).2) * 999 ≤ 1080 + 997 ∧
      (1920 ≤ 999 →
        100 - (normalizedToPixel 1920 1080 (pixelToNormalized 1920 1080 100 50).1
          (pixelToNormalized 1920 1080 100 50).2).1 ≤ 1) ∧
      (1080 ≤ 999 →
        50 - (normalizedToPixel 1920 1080 (pixelToNormalized 1920 1080 100 50).1
          (pixelToNormalized 1920 1080 100 50).2).2 ≤ 1)) :=
  ⟨by decide,
    c6_roundtrip_amended 1920 1080 100 50 (by decide) (by decide) (by decide) (by decide)⟩

/-- C6 counterexample: on the claim's own example extents 1920×1080, the pixel
(3, 14) round-trips to (1, 12) — both axes are off by **2**, exceeding the
claimed ±1 bound. -/
theorem c6_counterexample :
    pixelToNormalized 1920 1080 3 14 = (1, 12) ∧
    normalizedToPixel 1920 1080 1 12 = (1, 12) ∧
    ¬(3 - (normalizedToPixel 1920 1080 (pixelToNormalized 1920 1080 3 14).1
        (pixelToNormalized 1920 1080 3 14).2).1 ≤ 1) := by
  refine ⟨by decide, by decide, by decide⟩

lemma navLoop_cons_ok {exec : ℕ → Except String Unit} {m : ℕ} {url : String}
    {attempt : ℕ} {rest : List ℕ} {made : ℕ} {le : Option String} {s : List ℚ}
    (h : exec attempt = .ok ()) :
    navLoop exec m url (attempt :: rest) made le s = ⟨made + 1, s, .settled⟩ := by
  simp [navLoop, h]

lemma navLoop_cons_error {exec : ℕ → Except String Unit} {m : ℕ} {url : String}
    {attempt : ℕ} {rest : List ℕ} {made : ℕ} {le : Option String} {s : List ℚ}
    {e : String} (h : exec attempt = .error e) :
    navLoop exec m url (attempt :: rest) made le s =
      navLoop exec m url rest (made + 1) (some e)
        (if attempt + 1 < m then s ++ [(1/2 : ℚ) * 2 ^ attempt] else s) := by
  simp [navLoop, h]

lemma navLoop_allFail (exec : ℕ → Except String Unit) (m : ℕ) (url : String)
    (err : ℕ → String) :
    ∀ n a made (le : Option String) (s : List ℚ), a + n + 1 = m →
      (∀ i, a ≤ i → i ≤ a + n → exec i = .error (err i)) →
      navLoop exec m url (List.range' a (n + 1)) made le s =
        ⟨made + n + 1, s ++ (List.range' a n).map (fun i => (1/2 : ℚ) * 2 ^ i),
          .raisedEx (navFailMsg url m (some (err (a + n))))⟩ := by
  intro n
  induction n with
  | zero =>
    intro a made le s hm hf
    have ha : exec a = .error (err a) := hf a le_rfl (by omega)
    rw [List.range'_succ, navLoop_cons_error ha, if_neg (by omega)]
    simp [navLoop, navFailMsg]
  | succ n ih =>
    intro a made le s hm hf
    have ha : exec a = .error (err a) := hf a le_rfl (by omega)
    rw [List.range'_succ, navLoop_cons_error ha, if_pos (by omega)]
    rw [ih (a + 1) (made + 1) (some (err a)) (s ++ [(1/2 : ℚ) * 2 ^ a]) (by omega)
      (fun i h1 h2 => hf i (by omega) (by omega))]
    rw [List.range'_succ]
    simp only [List.map_cons, List.append_assoc, List.singleton_append]
    rw [show made + 1 + n + 1 = made + (n + 1) + 1 by omega,
      show a + 1 + n = a + (n + 1) by omega]

lemma navLoop_success (exec : ℕ → Except String Unit) (m : ℕ) (url : String)
    (err : ℕ → String) :
    ∀ pre n a made (le : Option String) (s : List ℚ),
      pre < n → a + n ≤ m → exec (a + pre) = .ok () →
      (∀ i, a ≤ i → i < a + pre → exec i = .error (err i)) →
      navLoop exec m url (List.range' a n) made le s =
        ⟨made + pre + 1, s ++ (List.range' a pre).map (fun i => (1/2 : ℚ) * 2 ^ i),
          .settled⟩ := by
  intro pre
  induction pre with
  | zero =>
    intro n a made le s hn hnm hok _
    obtain ⟨n', rfl⟩ : ∃ n', n = n' + 1 := ⟨n - 1, by omega⟩
    simp only [Nat.add_zero] at hok
    rw [List.range'_succ, navLoop_cons_ok hok]
    simp
  | succ pre ih =>
    intro n a made le s hn hnm hok hf
    obtain ⟨n', rfl⟩ : ∃ n', n = n' + 1 := ⟨n - 1, by omega⟩
    have ha : exec a = .error (err a) := hf a le_rfl (by omega)
    rw [List.range'_succ, navLoop_cons_error ha, if_pos (by omega)]
    rw [ih n' (a + 1) (made + 1) (some (err a)) (s ++ [(1/2 : ℚ) * 2 ^ a]) (by omega)
      (by omega) (by rw [show a + 1 + pre = a + (pre + 1) by omega]; exact hok)
      (fun i h1 h2 => hf i (by omega) (by omega))]
    rw [List.range'_succ]
    simp only [List.map_cons, List.append_assoc, List.singleton_append]
    rw [show made + 1 + pre + 1 = made + (pre + 1) + 1 by omega]

lemma containsSub_append_left (a n : String) : containsSub n (a ++ n) = true := by
  simp only [containsSub, decide_eq_true_eq]
  have h : (a ++ n).toList = a.toList ++ n.toList := by simp [String.toList]
  rw [h]
  exact (List.suffix_append _ _).isInfix

/-- C2 (amended): when every attempt of `KernelBrowserAdapter.navigate` fails,
exactly `maxRetries` attempts are made, with sleeps `0.5 * 2**i` seconds
between consecutive attempts (strictly increasing), and after the final attempt
the call ends by **raising** a `RuntimeError` whose message includes the last
attempt's failure message — the failure is an exception propagated to the
caller, not an error-carrying result value; if some attempt succeeds, no
further attempts are made. -/
theorem c2_navigate_retry_amended (exec : ℕ → Except String Unit) (url : String)
    (m : ℕ) (hm : 0 < m) (err : ℕ → String)
    (hfail : ∀ i, i < m → exec i = .error (err i)) :
    (navigate exec url m).attempts = m ∧
    (navigate exec url m).sleeps =
      (List.range (m - 1)).map (fun i => (1/2 : ℚ) * 2 ^ i) ∧
    (navigate exec url m).sleeps.Pairwise (· < ·) ∧
    (navigate exec url m).navEnd =
      .raisedEx (navFailMsg (ensureScheme url) m (some (err (m - 1)))) ∧
    containsSub (err (m - 1)) (navFailMsg (ensureScheme url) m (some (err (m - 1)))) = true ∧
    (∀ (exec2 : ℕ → Except String Unit) (err2 : ℕ → String) (k : ℕ), k < m →
      exec2 k = .ok () → (∀ i, i < k → exec2 i = .error (err2 i)) →
      (navigate exec2 url m).attempts = k + 1 ∧
      (navigate exec2 url m).navEnd = .settled) := by
  obtain ⟨n, rfl⟩ : ∃ n, m = n + 1 := ⟨m - 1, by omega⟩
  have hmain : navigate exec url (n + 1) =
      ⟨0 + n + 1, [] ++ (List.range' 0 n).map (fun i => (1/2 : ℚ) * 2 ^ i),
        .raisedEx (navFailMsg (ensureScheme url) (n + 1) (some (err (0 + n))))⟩ := by
    rw [navigate, List.range_eq_range']
    exact navLoop_allFail exec (n + 1) (ensureScheme url) err n 0 0 none []
      (by omega) (fun i h1 h2 => hfail i (by omega))
  rw [hmain]
  refine ⟨by simp, ?_, ?_, by simp, ?_, ?_⟩
  · simp [List.range_eq_range']
  · simp only [List.nil_append]
    rw [← List.range_eq_range', List.pairwise_map]
    exact (List.pairwise_lt_range n).imp (fun h => by gcongr <;> norm_num)
  · show containsSub (err (n + 1 - 1)) ("Navigation to " ++ ensureScheme url ++
      " failed after " ++ toString (n + 1) ++ " attempts: " ++ err (n + 1 - 1)) = true
    exact containsSub_append_left _ _
  · intro exec2 err2 k hk hok hpre
    have hsucc : navigate exec2 url (n + 1) =
        ⟨0 + k + 1, [] ++ (List.range' 0 k).map (fun i => (1/2 : ℚ) * 2 ^ i),
          .settled⟩ := by
      rw [navigate, List.range_eq_range']
      exact navLoop_success exec2 (n + 1) (ensureScheme url) err2 k (n + 1) 0 0 none []
        hk (by omega) (by simpa using hok) (fun i h1 h2 => hpre i (by omega))
    rw [hsucc]
    exact ⟨by simp, rfl⟩

/-- Witness for `c2_navigate_retry_amended`: three attempts, every one failing
with message "boom". -/
theorem c2_navigate_retry_amended_witness :
    (0 < 3 ∧ ∀ i, i < 3 →
      (fun _ => (Except.error "boom" : Except String Unit)) i =
        .error ((fun _ => "boom") i)) ∧
    ((navigate (fun _ => Except.error "boom") "https://example.com" 3).attempts = 3 ∧
      (navigate (fun _ => Except.error "boom") "https://example.com" 3).sleeps =
        (List.range (3 - 1)).map (fun i => (1/2 : ℚ) * 2 ^ i) ∧
      (navigate (fun _ => Except.error "boom") "https://example.com" 3).sleeps.Pairwise
        (· < ·) ∧
      (navigate (fun _ => Except.error "boom") "https://example.com" 3).navEnd =
        .raisedEx (navFailMsg (ensureScheme "https://example.com") 3
          (some ((fun _ => "boom") (3 - 1)))) ∧
      containsSub ((fun _ => "boom") (3 - 1))
        (navFailMsg (ensureScheme "https://example.com") 3
          (some ((fun _ => "boom") (3 - 1)))) = true ∧
      (∀ (exec2 : ℕ → Except String Unit) (err2 : ℕ → String) (k : ℕ), k < 3 →
        exec2 k = .ok () → (∀ i, i < k → exec2 i = .error (err2 i)) →
        (navigate exec2 "https://example.com" 3).attempts = k + 1 ∧
        (navigate exec2 "https://example.com" 3).navEnd = .settled)) :=
  ⟨⟨by decide, fun i _ => rfl⟩,
    c2_navigate_retry_amended (fun _ => Except.error "boom") "https://example.com" 3
      (by decide) (fun _ => "boom") (fun i _ => rfl)⟩

/-- C2 counterexample: with every attempt failing, `navigate` makes its 3
attempts (sleeping 0.5 s then 1.0 s) and then ends in `NavEnd.raisedEx` — a
`RuntimeError` raised to the caller.  The claim's "surfaces as an
`ExecutionResult.error` (not an unhandled exception)" is false: the adapter has
no error-carrying result value on this path, it raises. -/
theorem c2_navigate_counterexample :
    navigate (fun _ => Except.error "connection refused") "https://example.com" 3 =
      ⟨3, [(1/2 : ℚ), 1],
        .raisedEx
          "Navigation to https://example.com failed after 3 attempts: connection refused"⟩ ∧
    (navigate (fun _ => Except.error "connection refused") "https://example.com" 3).navEnd ≠
      NavEnd.settled := by
  have h := navLoop_allFail (fun _ => (Except.error "connection refused" : Except String Unit))
    3 (ensureScheme "https://example.com") (fun _ => "connection refused") 2 0 0 none []
    (by omega) (fun i _ _ => rfl)
  have hnav : navigate (fun _ => Except.error "connection refused") "https://example.com" 3 =
      ⟨3, [(1/2 : ℚ), 1],
        .raisedEx
          "Navigation to https://example.com failed after 3 attempts: connection refused"⟩ := by
    rw [navigate, List.range_eq_range', h]
    simp only [NavTrace.mk.injEq]
    refine ⟨by norm_num, by norm_num [List.range'], ?_⟩
    decide
  exact ⟨hnav, by rw [hnav]; simp⟩

/-- C3 counterexample: a `BaseException` exit from the body — here
`asyncio.CancelledError`, which is how a task timeout lands at the awaited
body — is caught by neither the `except Exception` branch nor the `else`
branch (the source has no `finally`), so the session is released **zero**
times, not exactly once: the heartbeat is not stopped and the cancellation
propagates with no release call at all. -/
theorem c3_acquired_browser_counterexample :
    releasesOf (acquiredBrowser "pool-a" "sess-1" true true
      (.baseExc "asyncio.CancelledError")) = [] ∧
    ¬((releasesOf (acquiredBrowser "pool-a" "sess-1" true true
      (.baseExc "asyncio.CancelledError"))).length = 1) ∧
    PoolEvent.stopHeartbeat ∉ acquiredBrowser "pool-a" "sess-1" true true
      (.baseExc "asyncio.CancelledError") ∧
    PoolEvent.reraise "asyncio.CancelledError" ∈ acquiredBrowser "pool-a" "sess-1" true true
      (.baseExc "asyncio.CancelledError") := by
  refine ⟨rfl, by decide, by decide, by decide⟩

/-- C3 (amended): when the body of the `acquired_browser` scope exits normally
or via an `Exception`-derived exception, the acquired session is released back
to the pool exactly once — with `reuse=false` (and the exception re-raised) on
the exception path, and with `reuse=true` on the normal path unless the adapter
was flagged non-reusable during setup; but on a `BaseException` exit
(`asyncio.CancelledError` from a task timeout, `KeyboardInterrupt`,
`SystemExit`) the scope performs no release at all (the source lacks a
`finally`), and the exception propagates. -/
theorem c3_acquired_browser_release_amended (pool sid : String)
    (resetOnInit resetFails : Bool) (body : BodyExit) :
    ((body = .normal ∨ ∃ e, body = .exc e) →
      (releasesOf (acquiredBrowser pool sid resetOnInit resetFails body)).length = 1) ∧
    (∀ e, body = .exc e →
      releasesOf (acquiredBrowser pool sid resetOnInit resetFails body) =
        [(pool, sid, false)] ∧
      PoolEvent.reraise e ∈ acquiredBrowser pool sid resetOnInit resetFails body) ∧
    (body = .normal →
      releasesOf (acquiredBrowser pool sid resetOnInit resetFails body) =
        [(pool, sid, !(resetOnInit && resetFails))]) ∧
    (∀ e, body = .baseExc e →
      releasesOf (acquiredBrowser pool sid resetOnInit resetFails body) = [] ∧
      PoolEvent.stopHeartbeat ∉ acquiredBrowser pool sid resetOnInit resetFails body ∧
      PoolEvent.reraise e ∈ acquiredBrowser pool sid resetOnInit resetFails body) := by
  cases body <;>
    simp [acquiredBrowser, releasesOf, initShouldNotReuse, List.filterMap]

/-- Witness for `c3_acquired_browser_release_amended`: a body raising the
`Exception`-derived "boom" on an adapter whose setup reset failed. -/
theorem c3_acquired_browser_release_amended_witness :
    ((BodyExit.exc "boom" = .normal ∨ ∃ e, BodyExit.exc "boom" = .exc e) →
      (releasesOf (acquiredBrowser "pool-a" "sess-1" true true (.exc "boom"))).length = 1) ∧
    (∀ e, BodyExit.exc "boom" = .exc e →
      releasesOf (acquiredBrowser "pool-a" "sess-1" true true (.exc "boom")) =
        [("pool-a", "sess-1", false)] ∧
      PoolEvent.reraise e ∈ acquiredBrowser "pool-a" "sess-1" true true (.exc "boom")) ∧
    (BodyExit.exc "boom" = .normal →
      releasesOf (acquiredBrowser "pool-a" "sess-1" true true (.exc "boom")) =
        [("pool-a", "sess-1", !(true && true))]) ∧
    (∀ e, BodyExit.exc "boom" = .baseExc e →
      releasesOf (acquiredBrowser "pool-a" "sess-1" true true (.exc "boom")) = [] ∧
      PoolEvent.stopHeartbeat ∉ acquiredBrowser "pool-a" "sess-1" true true (.exc "boom") ∧
      PoolEvent.reraise e ∈ acquiredBrowser "pool-a" "sess-1" true true (.exc "boom")) :=
  c3_acquired_browser_release_amended "pool-a" "sess-1" true true (.exc "boom")

end EvalBrowser

lemma GeminiTool.executeAction_exactly_one (remote : GeminiTool.RemoteCall → Except String Unit)
    (cap : Except String String) (getUrl : Except String (Option String))
    (screen : GeminiTool.ScreenSize) (name : String) (args : GeminiTool.FunctionArgs) :
    ((∃ s, (GeminiTool.executeAction remote cap getUrl screen name args).base64Image = some s) ↔
      (GeminiTool.executeAction remote cap getUrl screen name args).error = none) := by
  unfold GeminiTool.executeAction
  split
  · simp [GeminiTool.errResult]
  · split
    · simp [GeminiTool.errResult]
    · split
      · simp [GeminiTool.errResult]
      · unfold GeminiTool.screenshotResult
        split
        · simp [GeminiTool.errResult]
        · simp

lemma MoonTool.executeAction_error_xor_image (remote : GeminiTool.RemoteCall → Except String Unit)
    (cap : Except String (List ℕ)) (screen : GeminiTool.ScreenSize)
    (name : String) (args : GeminiTool.FunctionArgs) :
    ((∃ s, (MoonTool.executeAction remote cap screen name args).base64Image = some s) ↔
      (MoonTool.executeAction remote cap screen name args).error = none) := by
  unfold MoonTool.executeAction
  split
  · simp [MoonTool.unknownResult]
  · split
    · simp [MoonTool.errResult]
    · split
      · simp [MoonTool.errResult]
      · unfold MoonTool.screenshotResult
        split
        · simp [MoonTool.errResult]
        · simp

/-- C5: for every call to `ComputerTool.execute_action` (both the Gemini and
moondream variants), over every remote-call oracle, screenshot oracle, screen
size, action name and argument mapping, the returned `ToolResult` carries a
screenshot iff it carries no error — validation failures and caught remote
exceptions produce error-and-no-screenshot, successful runs produce
screenshot-and-no-error, and no exception escapes (the executor total-functions
into a `ToolResult`). -/
theorem c5_executor_exactly_one_of_screenshot_error :
    (∀ (remote : GeminiTool.RemoteCall → Except String Unit)
      (cap : Except String String) (getUrl : Except String (Option String))
      (screen : GeminiTool.ScreenSize) (name : String) (args : GeminiTool.FunctionArgs),
      ((∃ s, (GeminiTool.executeAction remote cap getUrl screen name args).base64Image =
          some s) ↔
        (GeminiTool.executeAction remote cap getUrl screen name args).error = none)) ∧
    (∀ (remote : GeminiTool.RemoteCall → Except String Unit)
      (cap : Except String (List ℕ)) (screen : GeminiTool.ScreenSize)
      (name : String) (args : GeminiTool.FunctionArgs),
      ((∃ s, (MoonTool.executeAction remote cap screen name args).base64Image = some s) ↔
        (MoonTool.executeAction remote cap screen name args).error = none)) :=
  ⟨GeminiTool.executeAction_exactly_one, MoonTool.executeAction_error_xor_image⟩

lemma GeminiTool.runRemote_allOk (remote : GeminiTool.RemoteCall → Except String Unit)
    (h : ∀ c, remote c = .ok ()) :
    ∀ cs, GeminiTool.runRemote remote cs = .ok () := by
  intro cs
  induction cs with
  | nil => rfl
  | cons c cs ih => rw [GeminiTool.runRemote, h c, ih]

/-- C9 (amended): no range validation exists anywhere on the coordinate path.
`denormalize_x`/`denormalize_y` are total arithmetic (they raise no
`CoordinateError`, whatever the inputs or extents), a coordinate-bearing action
is dispatched to the remote call with its mapped coordinates regardless of
whether they lie inside `[0, width) x [0, height)`, and
`normalized_to_pixel` likewise applies its formula unchecked, so a normalized
input ≥ 999 yields a pixel ≥ the extent which is returned, not rejected. -/
theorem c9_no_range_validation_amended (screen : GeminiTool.ScreenSize) (x y : ℤ)
    (remote : GeminiTool.RemoteCall → Except String Unit)
    (cap : Except String String) (getUrl : Except String (Option String))
    (bytes : String)
    (hremote : ∀ c, remote c = .ok ()) (hcap : cap = .ok bytes) :
    GeminiTool.branch screen "click_at" { x := some x, y := some y } =
      .calls [.clickMouse (GeminiTool.denormalizeX screen x)
        (GeminiTool.denormalizeY screen y) "left" "click" 1] ∧
    (GeminiTool.executeAction remote cap getUrl screen "click_at"
      { x := some x, y := some y }).error = none ∧
    (∀ w nx : ℕ, 0 < w → 999 ≤ nx → w ≤ (EvalBrowser.normalizedToPixel w w nx nx).1) := by
  refine ⟨rfl, ?_, ?_⟩
  · unfold GeminiTool.executeAction
    rw [if_neg (by simp [GeminiTool.predefinedFunctions])]
    simp only [show GeminiTool.branch screen "click_at" { x := some x, y := some y } =
      .calls [.clickMouse (GeminiTool.denormalizeX screen x)
        (GeminiTool.denormalizeY screen y) "left" "click" 1] from rfl,
      GeminiTool.runRemote_allOk remote hremote, hcap]
    rfl
  · intro w nx hw hnx
    have h1 : 999 * w ≤ nx * w := Nat.mul_le_mul_right w hnx
    have h2 : 999 * w / 999 ≤ nx * w / 999 := Nat.div_le_div_right h1
    have h3 : 999 * w / 999 = w := by omega
    simp only [EvalBrowser.normalizedToPixel]
    omega

/-- Witness for `c9_no_range_validation_amended` at a 1024×768 screen,
normalized input (2000, 0), an all-succeeding remote and a concrete capture. -/
theorem c9_no_range_validation_amended_witness :
    ((∀ c : GeminiTool.RemoteCall,
        (fun (_ : GeminiTool.RemoteCall) => (Except.ok () : Except String Unit)) c = .ok ()) ∧
      (Except.ok "png-bytes" : Except String String) = .ok "png-bytes") ∧
    (GeminiTool.branch ⟨1024, 768⟩ "click_at" { x := some 2000, y := some 0 } =
      .calls [.clickMouse (GeminiTool.denormalizeX ⟨1024, 768⟩ 2000)
        (GeminiTool.denormalizeY ⟨1024, 768⟩ 0) "left" "click" 1] ∧
    (GeminiTool.executeAction (fun _ => .ok ()) (.ok "png-bytes") (.ok none)
      ⟨1024, 768⟩ "click_at" { x := some 2000, y := some 0 }).error = none ∧
    (∀ w nx : ℕ, 0 < w → 999 ≤ nx → w ≤ (EvalBrowser.normalizedToPixel w w nx nx).1)) :=
  ⟨⟨fun _ => rfl, rfl⟩,
    c9_no_range_validation_amended ⟨1024, 768⟩ 2000 0 (fun _ => .ok ())
      (.ok "png-bytes") (.ok none) "png-bytes" (fun _ => rfl) rfl⟩

/-- C9 counterexample: at a 1024×768 screen, `click_at` with normalized
x = 2000 maps to pixel x = 2048 — outside `[0, 1024)` — yet the action reaches
the remote `click_mouse` call and the executor returns success (no
`CoordinateError` exists); likewise `normalized_to_pixel` at a 1920×1080
viewport maps (1500, 700) to (2882, 756), x outside `[0, 1920)`, without
error.  The claim's "fails validation (never reaches the executor)" and
"raises a coordinate error" are false of the code. -/
theorem c9_counterexample :
    GeminiTool.branch ⟨1024, 768⟩ "click_at" { x := some 2000, y := some 0 } =
      .calls [.clickMouse 2048 0 "left" "click" 1] ∧
    ¬((2048 : ℤ) < 1024) ∧
    (GeminiTool.executeAction (fun _ => .ok ()) (.ok "png-bytes") (.ok none)
      ⟨1024, 768⟩ "click_at" { x := some 2000, y := some 0 }).error = none ∧
    (GeminiTool.executeAction (fun _ => .ok ()) (.ok "png-bytes") (.ok none)
      ⟨1024, 768⟩ "click_at" { x := some 2000, y := some 0 }).base64Image =
      some (GeminiTool.b64encode "png-bytes") ∧
    EvalBrowser.normalizedToPixel 1920 1080 1500 700 = (2882, 756) ∧
    ¬((2882 : ℕ) < 1920) := by
  have hdx : GeminiTool.denormalizeX ⟨1024, 768⟩ 2000 = 2048 := by
    unfold GeminiTool.denormalizeX GeminiTool.COORDINATE_SCALE pyint
    norm_num
  have hdy : GeminiTool.denormalizeY ⟨1024, 768⟩ 0 = 0 := by
    unfold GeminiTool.denormalizeY GeminiTool.COORDINATE_SCALE pyint
    norm_num
  refine ⟨?_, by decide, rfl, rfl, by decide, by decide⟩
  rw [show GeminiTool.branch ⟨1024, 768⟩ "click_at" { x := some 2000, y := some 0 } =
    .calls [.clickMouse (GeminiTool.denormalizeX ⟨1024, 768⟩ 2000)
      (GeminiTool.denormalizeY ⟨1024, 768⟩ 0) "left" "click" 1] from rfl, hdx, hdy]

namespace GeminiLoop

lemma pruneAux_length (seen : ℕ) (l : List GContent) :
    (pruneAux seen l).length = l.length := by
  induction l generalizing seen with
  | nil => rfl
  | cons c rest ih =>
    rw [pruneAux]
    split
    · simp [ih]
    · simp [ih]

lemma pruneAux_getElem? (l : List GContent) :
    ∀ (seen j : ℕ),
      (pruneAux seen l)[j]? =
        (l[j]?).map (fun c0 =>
          if hasScreenshotTurn c0 = true ∧ 3 < seen + countShots (l.take (j + 1)) then
            clearContent c0
          else c0) := by
  induction l with
  | nil => intro seen j; simp [pruneAux]
  | cons c rest ih =>
    intro seen j
    by_cases hc : hasScreenshotTurn c = true
    · have hstep : pruneAux seen (c :: rest) =
          (if seen + 1 > MAX_RECENT_TURN_WITH_SCREENSHOTS then clearContent c else c) ::
            pruneAux (seen + 1) rest := by
        rw [pruneAux, if_pos hc]
      cases j with
      | zero =>
        rw [hstep]
        simp only [List.getElem?_cons_zero, Option.map_some']
        have hcount : countShots (List.take (0 + 1) (c :: rest)) = 1 := by
          simp [countShots, hc]
        rw [hcount, MAX_RECENT_TURN_WITH_SCREENSHOTS]
        by_cases hgt : seen + 1 > 3
        · rw [if_pos hgt, if_pos ⟨hc, by omega⟩]
        · rw [if_neg hgt, if_neg (fun hcon => hgt (by omega))]
      | succ j =>
        rw [hstep]
        simp only [List.getElem?_cons_succ]
        rw [ih (seen + 1) j]
        have htake : countShots (List.take (j + 1 + 1) (c :: rest)) =
            countShots (List.take (j + 1) rest) + 1 := by
          simp [countShots, List.take_succ_cons, List.countP_cons, hc]
        congr 1
        funext c0
        simp only [htake]
        rw [show seen + 1 + countShots (List.take (j + 1) rest) =
          seen + (countShots (List.take (j + 1) rest) + 1) from by omega]
    · have hstep : pruneAux seen (c :: rest) = c :: pruneAux seen rest := by
        rw [pruneAux, if_neg hc]
      cases j with
      | zero =>
        rw [hstep]
        simp only [List.getElem?_cons_zero, Option.map_some']
        rw [if_neg (fun hcon => hc hcon.1)]
      | succ j =>
        rw [hstep]
        simp only [List.getElem?_cons_succ]
        rw [ih seen j]
        have htake : countShots (List.take (j + 1 + 1) (c :: rest)) =
            countShots (List.take (j + 1) rest) := by
          simp [countShots, List.take_succ_cons, List.countP_cons, hc]
        congr 1
        funext c0
        simp only [htake]

end GeminiLoop

/-- C8: `_prune_old_screenshots` keeps the history's length (no message removed
or reordered); the turn at index `i` is replaced by its cleared form exactly
when it is screenshot-bearing and at least `N = 3` screenshot-bearing turns
follow it (i.e. it is older than the 3 most recent image-bearing turns), and is
kept verbatim otherwise; clearing a turn preserves its role, its number of
parts, its text parts and the `function_response` names/response data — only
the `function_response.parts` screenshot payloads are nulled. -/
theorem c8_prune_old_screenshots (cs : List GeminiLoop.GContent) :
    (GeminiLoop.pruneOldScreenshots cs).length = cs.length ∧
    (∀ (i : ℕ) (c0 : GeminiLoop.GContent), cs[i]? = some c0 →
      (GeminiLoop.pruneOldScreenshots cs)[i]? =
        some (if GeminiLoop.hasScreenshotTurn c0 = true ∧
            3 ≤ GeminiLoop.countShots (cs.drop (i + 1)) then
          GeminiLoop.clearContent c0 else c0)) ∧
    (∀ c, (GeminiLoop.clearContent c).role = c.role ∧
      (GeminiLoop.clearContent c).parts.length = c.parts.length ∧
      GeminiLoop.textsOf (GeminiLoop.clearContent c) = GeminiLoop.textsOf c ∧
      GeminiLoop.funcMeta (GeminiLoop.clearContent c) = GeminiLoop.funcMeta c) := by
  refine ⟨by simp [GeminiLoop.pruneOldScreenshots, GeminiLoop.pruneAux_length], ?_, ?_⟩
  · intro i c0 hi
    have hlen : i < cs.length := by
      by_contra hge
      rw [List.getElem?_eq_none (by omega)] at hi
      exact absurd hi (by simp)
    have hival : cs.get ⟨i, hlen⟩ = c0 := by
      have h := List.getElem?_eq_getElem hlen
      rw [hi] at h
      exact (Option.some.inj h).symm
    rw [GeminiLoop.pruneOldScreenshots]
    rw [List.getElem?_reverse
      (by rw [GeminiLoop.pruneAux_length, List.length_reverse]; exact hlen)]
    rw [GeminiLoop.pruneAux_length, List.length_reverse, GeminiLoop.pruneAux_getElem?]
    rw [List.getElem?_reverse (by omega)]
    rw [show cs.length - 1 - (cs.length - 1 - i) = i from by omega, hi, Option.map_some']
    have htake : List.take (cs.length - 1 - i + 1) cs.reverse = (List.drop i cs).reverse := by
      rw [List.take_reverse, show cs.length - (cs.length - 1 - i + 1) = i from by omega]
    rw [htake]
    have hcount : GeminiLoop.countShots ((List.drop i cs).reverse) =
        GeminiLoop.countShots (List.drop i cs) := List.countP_reverse _ _
    rw [hcount]
    have hdrop : List.drop i cs = c0 :: List.drop (i + 1) cs := by
      rw [List.drop_eq_getElem_cons hlen]
      rw [show cs[i] = cs.get ⟨i, hlen⟩ from rfl, hival]
    rw [hdrop, show GeminiLoop.countShots (c0 :: List.drop (i + 1) cs) =
      GeminiLoop.countShots (List.drop (i + 1) cs) +
        (if GeminiLoop.hasScreenshotTurn c0 = true then 1 else 0)
      from List.countP_cons _ _ _]
    by_cases hs : GeminiLoop.hasScreenshotTurn c0 = true
    · rw [if_pos hs]
      by_cases h3 : 3 ≤ GeminiLoop.countShots (List.drop (i + 1) cs)
      · rw [if_pos ⟨hs, by omega⟩, if_pos ⟨hs, h3⟩]
      · rw [if_neg (fun hcon => h3 (by omega)), if_neg (fun hcon => h3 hcon.2)]
    · rw [if_neg hs, if_neg (fun hcon => hs hcon.1), if_neg (fun hcon => hs hcon.1)]
  · intro c
    refine ⟨rfl, by simp [GeminiLoop.clearContent], ?_, ?_⟩
    · simp only [GeminiLoop.textsOf, GeminiLoop.clearContent, List.filterMap_map]
      congr 1
      funext p
      cases p with
      | textPart s => rfl
      | funcResp nm r fp =>
        by_cases hp : GeminiLoop.isPredefinedFunction nm = true
        · simp [Function.comp, GeminiLoop.clearPart, hp]
        · simp [Function.comp, GeminiLoop.clearPart, hp]
    · simp only [GeminiLoop.funcMeta, GeminiLoop.clearContent, List.filterMap_map]
      congr 1
      funext p
      cases p with
      | textPart s => rfl
      | funcResp nm r fp =>
        by_cases hp : GeminiLoop.isPredefinedFunction nm = true
        · simp [Function.comp, GeminiLoop.clearPart, hp]
        · simp [Function.comp, GeminiLoop.clearPart, hp]

/-- Witness for `c8_prune_old_screenshots` on `exampleHistory`: the two oldest
of its five image-bearing turns lose exactly their screenshot payloads, the
three most recent keep them, and every other message is untouched. -/
theorem c8_prune_old_screenshots_witness :
    GeminiLoop.exampleHistory[1]? =
      some ⟨"user", [.funcResp "click_at" "r1" (some ["img1"]), .textPart "t1"]⟩ ∧
    (GeminiLoop.pruneOldScreenshots GeminiLoop.exampleHistory)[1]? =
      some (if GeminiLoop.hasScreenshotTurn
            ⟨"user", [.funcResp "click_at" "r1" (some ["img1"]), .textPart "t1"]⟩ = true ∧
          3 ≤ GeminiLoop.countShots (GeminiLoop.exampleHistory.drop 2) then
        GeminiLoop.clearContent
          ⟨"user", [.funcResp "click_at" "r1" (some ["img1"]), .textPart "t1"]⟩
      else ⟨"user", [.funcResp "click_at" "r1" (some ["img1"]), .textPart "t1"]⟩) ∧
    GeminiLoop.pruneOldScreenshots GeminiLoop.exampleHistory =
      [⟨"model", [.textPart "plan"]⟩,
       ⟨"user", [.funcResp "click_at" "r1" none, .textPart "t1"]⟩,
       ⟨"user", [.funcResp "navigate" "r2" none]⟩,
       ⟨"user", [.textPart "plain"]⟩,
       ⟨"user", [.funcResp "click_at" "r3" (some ["img3"])]⟩,
       ⟨"user", [.funcResp "go_back" "r4" (some ["img4"])]⟩,
       ⟨"user", [.funcResp "scroll_at" "r5" (some ["img5"])]⟩] :=
  ⟨rfl,
    (c8_prune_old_screenshots GeminiLoop.exampleHistory).2.1 1
      ⟨"user", [.funcResp "click_at" "r1" (some ["img1"]), .textPart "t1"]⟩ rfl,
    by decide⟩

namespace MoonLoop

lemma validateDone_check1 (oracle : String → RepairOutcome) (msgs : List Msg)
    (lastPageUrl : Option String) (final : String)
    (h1 : (final == "" || containsSub "\x7b\x7b" final || containsSub "\x7d\x7d" final ||
      containsSub "placeholder" (pyLower final)) = true) :
    validateDone oracle msgs lastPageUrl true final = (msgs ++ [placeholderMsg], false, "") := by
  rw [validateDone]
  simp [h1]

lemma validateDone_check2 (oracle : String → RepairOutcome) (msgs : List Msg)
    (lastPageUrl : Option String) (final : String)
    (h1 : (final == "" || containsSub "\x7b\x7b" final || containsSub "\x7d\x7d" final ||
      containsSub "placeholder" (pyLower final)) = false)
    (hstart : pyStartsWith (pyStrip final) "\x7b" = true)
    (hobj : ∀ o, oracle (pyStrip final) ≠ .obj o) :
    validateDone oracle msgs lastPageUrl true final =
      (msgs ++ [invalidJsonMsg], false, "") := by
  rw [validateDone]
  simp only [h1, Bool.true_and, Bool.false_eq_true, if_false]
  cases h : oracle (pyStrip final) with
  | obj o => exact absurd h (hobj o)
  | raiseEx e => simp [hstart, h]
  | nonObj => simp [hstart, h]

end MoonLoop

/-- C1: in every iteration whose response declares `done=true`, if the final
answer is empty, contains a placeholder token (`{{`, `}}`, or the word
"placeholder", case-insensitively), or is JSON-shaped (strips to a string
starting with `{`) but fails to repair-parse into a JSON object, then the
done-validation does not leave the iteration as Done: it appends exactly one
corrective user message, resets the done flag to false and the final answer to
empty — so the loop's `if done_flag: return` is not taken and iteration
continues. -/
theorem c1_done_not_terminal_on_bad_final (oracle : String → MoonLoop.RepairOutcome)
    (msgs : List MoonLoop.Msg) (lastPageUrl : Option String) (final : String)
    (hbad : final = "" ∨ containsSub "\x7b\x7b" final = true ∨
      containsSub "\x7d\x7d" final = true ∨
      containsSub "placeholder" (pyLower final) = true ∨
      (pyStartsWith (pyStrip final) "\x7b" = true ∧
        ∀ o, oracle (pyStrip final) ≠ .obj o)) :
    (MoonLoop.validateDone oracle msgs lastPageUrl true final).2.1 = false ∧
    (MoonLoop.validateDone oracle msgs lastPageUrl true final).2.2 = "" ∧
    ∃ m : MoonLoop.Msg,
      (MoonLoop.validateDone oracle msgs lastPageUrl true final).1 = msgs ++ [m] ∧
      m.role = "user" := by
  by_cases h1 : (final == "" || containsSub "\x7b\x7b" final ||
      containsSub "\x7d\x7d" final || containsSub "placeholder" (pyLower final)) = true
  · rw [MoonLoop.validateDone_check1 oracle msgs lastPageUrl final h1]
    exact ⟨rfl, rfl, MoonLoop.placeholderMsg, rfl, rfl⟩
  · have h1f : (final == "" || containsSub "\x7b\x7b" final ||
        containsSub "\x7d\x7d" final || containsSub "placeholder" (pyLower final)) = false :=
      eq_false_of_ne_true h1
    simp only [Bool.or_eq_false_iff] at h1f
    obtain ⟨hstart, hobj⟩ : pyStartsWith (pyStrip final) "\x7b" = true ∧
        ∀ o, oracle (pyStrip final) ≠ .obj o := by
      rcases hbad with hf | h | h | h | hj
      · subst hf; simp at h1f
      · rw [h] at h1f; simp at h1f
      · rw [h] at h1f; simp at h1f
      · rw [h] at h1f; simp at h1f
      · exact hj
    rw [MoonLoop.validateDone_check2 oracle msgs lastPageUrl final
      (by simp [h1f.1.1.1, h1f.1.1.2, h1f.1.2, h1f.2]) hstart hobj]
    exact ⟨rfl, rfl, MoonLoop.invalidJsonMsg, rfl, rfl⟩

/-- Witness for `c1_done_not_terminal_on_bad_final`: the spec's own example,
`done=true` with final answer "The result is {{x}}". -/
theorem c1_done_not_terminal_on_bad_final_witness :
    (("The result is \x7b\x7bx\x7d\x7d" : String) = "" ∨
      containsSub "\x7b\x7b" "The result is \x7b\x7bx\x7d\x7d" = true ∨
      containsSub "\x7d\x7d" "The result is \x7b\x7bx\x7d\x7d" = true ∨
      containsSub "placeholder" (pyLower "The result is \x7b\x7bx\x7d\x7d") = true ∨
      (pyStartsWith (pyStrip "The result is \x7b\x7bx\x7d\x7d") "\x7b" = true ∧
        ∀ o, (fun _ => MoonLoop.RepairOutcome.nonObj) (pyStrip "The result is \x7b\x7bx\x7d\x7d") ≠
          .obj o)) ∧
    ((MoonLoop.validateDone (fun _ => MoonLoop.RepairOutcome.nonObj) [] none true
        "The result is \x7b\x7bx\x7d\x7d").2.1 = false ∧
      (MoonLoop.validateDone (fun _ => MoonLoop.RepairOutcome.nonObj) [] none true
        "The result is \x7b\x7bx\x7d\x7d").2.2 = "" ∧
      ∃ m : MoonLoop.Msg,
        (MoonLoop.validateDone (fun _ => MoonLoop.RepairOutcome.nonObj) [] none true
          "The result is \x7b\x7bx\x7d\x7d").1 = [] ++ [m] ∧
        m.role = "user") :=
  ⟨Or.inr (Or.inl (by decide)),
    c1_done_not_terminal_on_bad_final (fun _ => MoonLoop.RepairOutcome.nonObj) [] none
      "The result is \x7b\x7bx\x7d\x7d" (Or.inr (Or.inl (by decide)))⟩

/-- C4 counterexample: a model response "hello" that cannot be parsed into an
action batch triggers **no** corrective message and **no** re-query (the
retry in lines 209–225 guards only `_groq_completion` exceptions, not parse
failures): the prologue appends nothing and the parse step's `ValueError`
("No JSON object found in LLM response") propagates uncaught out of
`run_llm_agent` — the caller gets an exception, not a Failed `LoopResult`. -/
theorem c4_counterexample :
    (MoonLoop.iterationParsePhase (fun _ => MoonLoop.RepairOutcome.nonObj)
      (.ok "hello") (.ok "hello")).appended = [] ∧
    (MoonLoop.iterationParsePhase (fun _ => MoonLoop.RepairOutcome.nonObj)
      (.ok "hello") (.ok "hello")).errorVar = none ∧
    (MoonLoop.iterationParsePhase (fun _ => MoonLoop.RepairOutcome.nonObj)
      (.ok "hello") (.ok "hello")).parsed =
      .error "No JSON object found in LLM response" :=
  ⟨rfl, rfl, rfl⟩

/-- C4 (amended): the corrective-retry protocol guards the **model call**, not
the parser.  If the first `_groq_completion` succeeds, its raw text goes
straight to the parser with no corrective message; if it raises, exactly one
corrective message is appended and the model is re-queried exactly once; if the
retry also raises, the error is recorded and the iteration proceeds on a
substituted empty-actions object (the loop keeps iterating, it does not
terminate as Failed).  A response that reaches `_parse_json_action` without a
brace pair raises a `ValueError` that propagates uncaught to the caller. -/
theorem c4_retry_semantics_amended (oracle : String → MoonLoop.RepairOutcome)
    (raw e1 e2 : String) :
    (∀ second, MoonLoop.iterationParsePhase oracle (.ok raw) second =
      ⟨[], none, MoonLoop.parseJsonAction oracle raw⟩) ∧
    MoonLoop.iterationParsePhase oracle (.error e1) (.ok raw) =
      ⟨[MoonLoop.invalidOutputMsg], none, MoonLoop.parseJsonAction oracle raw⟩ ∧
    MoonLoop.iterationParsePhase oracle (.error e1) (.error e2) =
      ⟨[MoonLoop.invalidOutputMsg], some e2,
        MoonLoop.parseJsonAction oracle MoonLoop.emptyActionsRaw⟩ ∧
    (containsSub "\x7b" raw = false →
      MoonLoop.parseJsonAction oracle raw = .error "No JSON object found in LLM response") := by
  refine ⟨fun second => rfl, rfl, rfl, ?_⟩
  intro hnb
  have hmem : '{' ∉ raw.toList := by
    intro hm
    obtain ⟨s, t, hst⟩ := List.append_of_mem hm
    have hinf : ("\x7b").toList <:+: raw.toList := by
      rw [hst, show s ++ '{' :: t = s ++ ['{'] ++ t from by simp]
      exact List.infix_append s ['{'] t
    rw [show containsSub "\x7b" raw = true from decide_eq_true hinf] at hnb
    cases hnb
  have hfind : raw.toList.findIdx? (· = '{') = none := by
    rw [List.findIdx?_eq_none_iff]
    intro x hx
    simp only [decide_eq_false_iff_not]
    intro hxe
    exact hmem (hxe ▸ hx)
  rw [MoonLoop.parseJsonAction, hfind]

/-- Witness for `c4_retry_semantics_amended` at a brace-free raw response. -/
theorem c4_retry_semantics_amended_witness :
    containsSub "\x7b" "no json here" = false ∧
    ((∀ second, MoonLoop.iterationParsePhase (fun _ => MoonLoop.RepairOutcome.nonObj)
        (.ok "no json here") second =
      ⟨[], none, MoonLoop.parseJsonAction (fun _ => MoonLoop.RepairOutcome.nonObj)
        "no json here"⟩) ∧
    MoonLoop.iterationParsePhase (fun _ => MoonLoop.RepairOutcome.nonObj)
        (.error "boom1") (.ok "no json here") =
      ⟨[MoonLoop.invalidOutputMsg], none,
        MoonLoop.parseJsonAction (fun _ => MoonLoop.RepairOutcome.nonObj) "no json here"⟩ ∧
    MoonLoop.iterationParsePhase (fun _ => MoonLoop.RepairOutcome.nonObj)
        (.error "boom1") (.error "boom2") =
      ⟨[MoonLoop.invalidOutputMsg], some "boom2",
        MoonLoop.parseJsonAction (fun _ => MoonLoop.RepairOutcome.nonObj)
          MoonLoop.emptyActionsRaw⟩ ∧
    (containsSub "\x7b" "no json here" = false →
      MoonLoop.parseJsonAction (fun _ => MoonLoop.RepairOutcome.nonObj) "no json here" =
        .error "No JSON object found in LLM response")) :=
  ⟨by decide,
    c4_retry_semantics_amended (fun _ => MoonLoop.RepairOutcome.nonObj)
      "no json here" "boom1" "boom2"⟩

/-- C7 counterexample: `_coerce_coords` with `x = 0.5`, `y = 500` on the
1200×800 screen returns `(0, 500)` — both values classified jointly as
fixed-scale because `y` is not in `[0,1]` — whereas the claim's per-value
heuristic classifies `x = 0.5` as unit-interval and predicts `(500, 500)`. -/
theorem c7_counterexample :
    MoonLoop.coerceCoords (fun _ => none)
      ⟨some (.num (1/2)), some (.num 500)⟩ ⟨1200, 800⟩ = .ok (0, 500) ∧
    MoonLoop.specCoerceValue 1000 1200 (1/2) = 500 ∧
    MoonLoop.specCoerceValue 1000 800 500 = 500 ∧
    (0 : ℤ) ≠ 500 := by
  have hp0 : pyint ((1 : ℚ)/2) = 0 := by
    rw [pyint, if_pos (by norm_num)]
    norm_num
  have hp500 : pyint ((500 : ℚ)) = 500 := by
    rw [pyint, if_pos (by norm_num)]
    norm_num
  refine ⟨?_, ?_, ?_, by decide⟩
  · simp only [MoonLoop.coerceCoords, MoonLoop.placeholderStr, MoonLoop.toFloat,
      MoonLoop.COORDINATE_SCALE, Bool.false_eq_true, if_false]
    rw [if_neg (by norm_num), if_pos (by norm_num), hp0, hp500]
  · rw [MoonLoop.specCoerceValue, if_pos (by norm_num),
      show (1 : ℚ)/2 * 1000 = 500 from by norm_num, hp500]
  · rw [MoonLoop.specCoerceValue, if_neg (by norm_num), if_pos (by norm_num), hp500]

/-- C7 (amended): `_coerce_coords` classifies the coordinate **pair jointly**
— unit-interval only when both values lie in `[0,1]`, fixed-scale only when
both lie in `[0,1000]`, otherwise both treated as raw pixels — and it is a
pure, deterministic function of the arguments and screen size (in particular
independent of the string-float oracle on numeric arguments). -/
theorem c7_joint_classification_amended (pf pf2 : String → Option ℚ) (x y : ℚ)
    (screen : GeminiTool.ScreenSize) :
    MoonLoop.coerceCoords pf ⟨some (.num x), some (.num y)⟩ screen =
      .ok (MoonLoop.specCoercePair 1000 screen x y) ∧
    MoonLoop.coerceCoords pf ⟨some (.num x), some (.num y)⟩ screen =
      MoonLoop.coerceCoords pf2 ⟨some (.num x), some (.num y)⟩ screen := by
  have key : ∀ pf' : String → Option ℚ,
      MoonLoop.coerceCoords pf' ⟨some (.num x), some (.num y)⟩ screen =
        .ok (MoonLoop.specCoercePair 1000 screen x y) := by
    intro pf'
    simp only [MoonLoop.coerceCoords, MoonLoop.specCoercePair, MoonLoop.placeholderStr,
      MoonLoop.toFloat, MoonLoop.COORDINATE_SCALE, Bool.false_eq_true, if_false]
    split_ifs <;> rfl
  exact ⟨key pf, (key pf).trans (key pf2).symm⟩

/-- C10 counterexample: a `type_text_at` whose `x` is the placeholder string
"{{x}}" and whose `text` is **absent**, with a prior `moondream_point` at
(100, 200): the branch appends the success "used last moondream_point" record
but then raises `ValueError("type_text_at requires text")` — the action is
*not* executed, contradicting the claim that any such action is executed at
the last point's coordinates. -/
theorem c10_counterexample :
    MoonLoop.typeTextAtBranch (fun _ => none)
      ⟨some (.str "\x7b\x7bx\x7d\x7d"), some (.num 1)⟩ none ⟨1200, 800⟩
      (some (100, 200)) true =
      ⟨[⟨"type_text_at", "success", "used last moondream_point", true⟩], none,
        some "type_text_at requires text"⟩ := by
  decide

/-- C10 (amended): for `click_at`, and for `type_text_at` whose `text` argument
is present, a coordinate-coercion failure falls back to the last
`moondream_point` coordinates when one exists — the action is executed there
and a success record with detail "used last moondream_point" is appended —
and is recorded failed and skipped only when no prior point exists; for
`type_text_at` with `text` absent, the fallback record is still appended but
the branch raises instead of executing. -/
theorem c10_last_point_fallback_amended (pf : String → Option ℚ)
    (args : MoonLoop.CoordArgs) (screen : GeminiTool.ScreenSize) (p : ℤ × ℤ)
    (execOk : Bool) (e t : String)
    (herr : MoonLoop.coerceCoords pf args screen = .error e) :
    MoonLoop.clickAtBranch pf args screen (some p) execOk =
      ⟨[⟨"click_at", "success", "used last moondream_point", true⟩,
        ⟨"click_at", MoonLoop.statusOf execOk, "clicked", false⟩], some p, none⟩ ∧
    MoonLoop.clickAtBranch pf args screen none execOk =
      ⟨[⟨"click_at", "failed", e, false⟩], none, none⟩ ∧
    MoonLoop.typeTextAtBranch pf args (some t) screen (some p) execOk =
      ⟨[⟨"type_text_at", "success", "used last moondream_point", true⟩,
        ⟨"type_text_at", MoonLoop.statusOf execOk, "typed", false⟩], some p, none⟩ ∧
    MoonLoop.typeTextAtBranch pf args none screen (some p) execOk =
      ⟨[⟨"type_text_at", "success", "used last moondream_point", true⟩], none,
        some "type_text_at requires text"⟩ ∧
    MoonLoop.typeTextAtBranch pf args none screen none execOk =
      ⟨[⟨"type_text_at", "failed", e, false⟩], none, none⟩ := by
  obtain ⟨px, py⟩ := p
  refine ⟨?_, ?_, ?_, ?_, ?_⟩ <;>
    simp [MoonLoop.clickAtBranch, MoonLoop.typeTextAtBranch, herr]

/-- Witness for `c10_last_point_fallback_amended`: placeholder `x`, numeric
`y`, prior point (100, 200). -/
theorem c10_last_point_fallback_amended_witness :
    MoonLoop.coerceCoords (fun _ => none)
      ⟨some (.str "\x7b\x7bx\x7d\x7d"), some (.num 1)⟩ ⟨1200, 800⟩ =
      .error "x must be a number, not a placeholder" ∧
    (MoonLoop.clickAtBranch (fun _ => none)
        ⟨some (.str "\x7b\x7bx\x7d\x7d"), some (.num 1)⟩ ⟨1200, 800⟩
        (some (100, 200)) true =
      ⟨[⟨"click_at", "success", "used last moondream_point", true⟩,
        ⟨"click_at", MoonLoop.statusOf true, "clicked", false⟩], some (100, 200), none⟩ ∧
    MoonLoop.clickAtBranch (fun _ => none)
        ⟨some (.str "\x7b\x7bx\x7d\x7d"), some (.num 1)⟩ ⟨1200, 800⟩ none true =
      ⟨[⟨"click_at", "failed", "x must be a number, not a placeholder", false⟩],
        none, none⟩ ∧
    MoonLoop.typeTextAtBranch (fun _ => none)
        ⟨some (.str "\x7b\x7bx\x7d\x7d"), some (.num 1)⟩ (some "hello") ⟨1200, 800⟩
        (some (100, 200)) true =
      ⟨[⟨"type_text_at", "success", "used last moondream_point", true⟩,
        ⟨"type_text_at", MoonLoop.statusOf true, "typed", false⟩], some (100, 200), none⟩ ∧
    MoonLoop.typeTextAtBranch (fun _ => none)
        ⟨some (.str "\x7b\x7bx\x7d\x7d"), some (.num 1)⟩ none ⟨1200, 800⟩
        (some (100, 200)) true =
      ⟨[⟨"type_text_at", "success", "used last moondream_point", true⟩], none,
        some "type_text_at requires text"⟩ ∧
    MoonLoop.typeTextAtBranch (fun _ => none)
        ⟨some (.str "\x7b\x7bx\x7d\x7d"), some (.num 1)⟩ none ⟨1200, 800⟩ none true =
      ⟨[⟨"type_text_at", "failed", "x must be a number, not a placeholder", false⟩],
        none, none⟩) :=
  ⟨rfl,
    c10_last_point_fallback_amended (fun _ => none)
      ⟨some (.str "\x7b\x7bx\x7d\x7d"), some (.num 1)⟩ ⟨1200, 800⟩ (100, 200) true
      "x must be a number, not a placeholder" "hello" rfl⟩
